import Mathlib

/-!
Verification model of the pyroSAR scene-identification module (pyroSAR.py).

The definitions below are a shallow embedding of the source: pure Python
functions become Lean functions, the object attribute dictionary becomes an
association list, Python exceptions become an explicit error type carried in
an `Except`, and the external GDAL metadata reader becomes an environment
parameter.  Machine floats are modelled as rationals.
-/

namespace PyroSAR

/-! ## String utilities -/

/-- Fuelled digit expansion; the fuel bounds the number of digits. -/
def natCharsAux : Nat → Nat → List Char
  | 0, _ => []
  | fuel + 1, n =>
      if n < 10 then [Char.ofNat (48 + n)]
      else natCharsAux fuel (n / 10) ++ [Char.ofNat (48 + n % 10)]

/-- Decimal digit characters of a natural number, most significant first. -/
def natChars (n : Nat) : List Char := natCharsAux (n + 1) n

/-- Decimal string of a natural number (model of Python `str` on ints >= 0). -/
def natStr (n : Nat) : String := String.mk (natChars n)

/-- Decimal string of an integer (model of Python `str` on ints). -/
def intStr (x : Int) : String :=
  if x < 0 then String.mk ('-' :: natChars x.natAbs) else String.mk (natChars x.natAbs)

/-- Left-pad a character list with `c` up to width `w` (never truncates). -/
def leftpad (c : Char) (w : Nat) (l : List Char) : List Char :=
  List.replicate (w - l.length) c ++ l

/-- Model of Python `str.zfill`: zero-pad to width, keeping a leading sign. -/
def pyZfill (s : String) (w : Nat) : String :=
  match s.data with
  | c :: rest =>
      if c = '-' ∨ c = '+' then String.mk (c :: leftpad '0' (w - 1) rest)
      else String.mk (leftpad '0' w s.data)
  | [] => String.mk (leftpad '0' w [])

/-- Strip leading and trailing occurrences of a character (Python `str.strip(ch)`). -/
def pyStripChar (ch : Char) (s : String) : String :=
  String.mk (((s.data.dropWhile (· = ch)).reverse.dropWhile (· = ch)).reverse)

/-- Strip leading and trailing ASCII whitespace (Python `str.strip()`). -/
def pyStrip (s : String) : String :=
  String.mk (((s.data.dropWhile Char.isWhitespace).reverse.dropWhile Char.isWhitespace).reverse)

/-- Fuelled replacement scan: replace every (non-overlapping, left-to-right)
occurrence of `pat` by `rep`.  The fuel bounds the number of scan steps; with
fuel at least the input length the scan always completes. -/
def replaceAux (pat rep : List Char) : Nat → List Char → List Char
  | _, [] => []
  | 0, l => l
  | fuel + 1, c :: rest =>
      if pat ≠ [] ∧ pat.isPrefixOf (c :: rest) then
        rep ++ replaceAux pat rep fuel ((c :: rest).drop pat.length)
      else
        c :: replaceAux pat rep fuel rest

/-- Model of Python `str.replace` on strings. -/
def pyReplace (s pat rep : String) : String :=
  String.mk (replaceAux pat.data rep.data s.data.length s.data)

/-- True when `needle` occurs as a contiguous substring (model of `re.search`
on a plain-text pattern). -/
def containsSub (s needle : String) : Bool :=
  s.data.tails.any (fun t => needle.data.isPrefixOf t)

/-- True when `suf` is a suffix of `s` (model of `str.endswith`). -/
def strEndsWith (s suf : String) : Bool := suf.data.isSuffixOf s.data

/-- Code-point order on character lists (Python string comparison). -/
def listLe : List Char → List Char → Bool
  | [], _ => true
  | _ :: _, [] => false
  | a :: as, b :: bs =>
      if a = b then listLe as bs else decide (a.toNat < b.toNat)

/-- Last path component (model of `os.path.basename` on slash-separated paths). -/
def pyBasename (s : String) : String :=
  String.mk ((s.data.reverse.takeWhile (· ≠ '/')).reverse)

/-- Model of `os.path.join` for a relative second argument. -/
def pyJoin (a b : String) : String := a ++ "/" ++ b

/-- Longest common character prefix of two character lists. -/
def common2 : List Char → List Char → List Char
  | a :: as, b :: bs => if a = b then a :: common2 as bs else []
  | _, _ => []

/-- Model of `os.path.commonprefix`: longest common character prefix of a list
of strings (character-wise, not path-component-wise). -/
def commonRoot : List String → String
  | [] => ""
  | s :: rest => String.mk (rest.foldl (fun acc t => common2 acc t.data) s.data)

/-- Extension part of `os.path.splitext`: the suffix of the basename from its
last dot, where leading dots of the basename never open an extension. -/
def splitextExt (p : String) : String :=
  let b := (pyBasename p).data
  let lead := b.takeWhile (· = '.')
  let rest := b.drop lead.length
  if rest.contains '.' then
    String.mk ('.' :: (rest.reverse.takeWhile (· ≠ '.')).reverse)
  else ""

/-- Numeric value of a list of decimal digit characters. -/
def digitsVal (l : List Char) : Nat :=
  l.foldl (fun a c => a * 10 + (c.toNat - 48)) 0

/-! ## Literal values and literal-type coercion -/

/-- A Python literal value as produced by metadata coercion: an integer, a
float (modelled as an exact rational), or a string. -/
inductive Value where
  | int : Int → Value
  | float : ℚ → Value
  | str : String → Value
deriving DecidableEq, Repr

/-- True when the string is a Python integer literal (optional sign, digits). -/
def isIntLit (s : String) : Bool :=
  match s.data with
  | '-' :: rest => rest ≠ [] ∧ rest.all Char.isDigit
  | '+' :: rest => rest ≠ [] ∧ rest.all Char.isDigit
  | l => l ≠ [] ∧ l.all Char.isDigit

/-- True when the string is a simple Python float literal `digits.digits`
(with optional sign). -/
def isFloatLit (s : String) : Bool :=
  let body := match s.data with
    | '-' :: rest => rest
    | '+' :: rest => rest
    | l => l
  match body.span (· ≠ '.') with
  | (intPart, '.' :: fracPart) =>
      intPart ≠ [] ∧ fracPart ≠ [] ∧ intPart.all Char.isDigit ∧ fracPart.all Char.isDigit
  | _ => false

/-- Integer value of an integer literal string. -/
def intLitVal (s : String) : Int :=
  match s.data with
  | '-' :: rest => - (digitsVal rest : Int)
  | '+' :: rest => (digitsVal rest : Int)
  | l => (digitsVal l : Int)

/-- Rational value of a simple float literal string. -/
def floatLitVal (s : String) : ℚ :=
  let (sign, body) : ℚ × List Char := match s.data with
    | '-' :: rest => (-1, rest)
    | '+' :: rest => (1, rest)
    | l => (1, l)
  match body.span (· ≠ '.') with
  | (intPart, '.' :: fracPart) =>
      sign * ((digitsVal intPart : ℚ) + (digitsVal fracPart : ℚ) / ((10 : ℚ) ^ fracPart.length))
  | _ => 0

/-- Modelled from the spec: `ancillary.parse_literal` (imported by the source
but not under src/) performs "literal-type coercion" of a raw metadata string:
it is tried as an integer, then as a float, and otherwise kept as a string. -/
def parse_literal (s : String) : Value :=
  if isIntLit s then .int (intLitVal s)
  else if isFloatLit s then .float (floatLitVal s)
  else .str s

/-! ## Errors

Python exceptions raised by the modelled code.  The dispatcher `identify`
catches exactly `IOError`; every other exception propagates. -/

/-- Exceptions raised by the modelled source code. -/
inductive PyError where
  | notRecognized (cls : String)
  | ambiguous
  | unsupportedProduct (msg : String)
  | fileTypeNotSupported
  | unsupported
  | runtimeNotUnpacked
  | attributeError (name : String)
  | typeError
  | indexError
deriving DecidableEq, Repr

deriving instance DecidableEq for Except

/-- True for the errors the source raises as `IOError` (the only exception
class caught by `identify`). -/
def PyError.isIOError : PyError → Bool
  | .notRecognized _ | .ambiguous | .unsupportedProduct _
  | .fileTypeNotSupported | .unsupported => true
  | _ => false

/-! ## Timestamp parsing (`time.strptime` restricted to the four formats of
`ID.gdalinfo`) and canonical reformatting (`time.strftime`).

Each format is embedded as a parser in continuation-passing style; numeric
fields accept one or two digits with the two-digit alternative first and
bounds as in CPython's `_strptime` regexes, and `%f` accepts one to six
digits.  Failure of either strptime (ValueError) or of applying it to a
non-string (TypeError) leaves the value unchanged, as in the source's
`except (TypeError, ValueError): pass`. -/

/-- A parsed broken-down time (only the fields the canonical output needs). -/
structure Tm where
  year : Nat
  month : Nat
  day : Nat
  hour : Nat
  minute : Nat
  sec : Nat
deriving DecidableEq, Repr

/-- Consume one expected literal character. -/
def litC (c : Char) (k : List Char → Option Tm) : List Char → Option Tm
  | x :: rest => if x = c then k rest else none
  | [] => none

/-- Consume a numeric field of one or two digits within bounds, trying the
two-digit reading first and backtracking to one digit. -/
def num2or1 (lo hi : Nat) (k : Nat → List Char → Option Tm) : List Char → Option Tm
  | c1 :: c2 :: rest =>
      (if c1.isDigit ∧ c2.isDigit ∧ lo ≤ digitsVal [c1, c2] ∧ digitsVal [c1, c2] ≤ hi then
          k (digitsVal [c1, c2]) rest
        else none).orElse
        (fun _ =>
          if c1.isDigit ∧ lo ≤ digitsVal [c1] ∧ digitsVal [c1] ≤ hi then
            k (digitsVal [c1]) (c2 :: rest)
          else none)
  | [c1] =>
      if c1.isDigit ∧ lo ≤ digitsVal [c1] ∧ digitsVal [c1] ≤ hi then k (digitsVal [c1]) []
      else none
  | [] => none

/-- Consume exactly four digits (the strptime `%Y` field). -/
def num4 (k : Nat → List Char → Option Tm) : List Char → Option Tm
  | c1 :: c2 :: c3 :: c4 :: rest =>
      if [c1, c2, c3, c4].all Char.isDigit then k (digitsVal [c1, c2, c3, c4]) rest else none
  | _ => none

/-- Month numbers keyed by lowercase three-letter abbreviation. -/
def monthNum (s : String) : Option Nat :=
  [("jan", 1), ("feb", 2), ("mar", 3), ("apr", 4), ("may", 5), ("jun", 6),
   ("jul", 7), ("aug", 8), ("sep", 9), ("oct", 10), ("nov", 11), ("dec", 12)].lookup s

/-- Consume a case-insensitive month abbreviation (the strptime `%b` field). -/
def monthAbb (k : Nat → List Char → Option Tm) : List Char → Option Tm
  | c1 :: c2 :: c3 :: rest =>
      match monthNum (String.mk [c1.toLower, c2.toLower, c3.toLower]) with
      | some m => k m rest
      | none => none
  | _ => none

/-- Consume between one and `i` digits (greedy, with backtracking), then
continue (the strptime `%f` field with `i = 6`). -/
def tryFrac (i : Nat) (k : List Char → Option Tm) (l : List Char) : Option Tm :=
  match i with
  | 0 => none
  | j + 1 =>
      (if (l.take (j + 1)).length = j + 1 ∧ (l.take (j + 1)).all Char.isDigit then
          k (l.drop (j + 1))
        else none).orElse (fun _ => tryFrac j k l)

/-- The strptime `%f` field: one to six digits. -/
def fracP (k : List Char → Option Tm) (l : List Char) : Option Tm := tryFrac 6 k l

/-- Format 1 of the source: day-month-year-time. -/
def fmt1 (l : List Char) : Option Tm :=
  num2or1 1 31 (fun d =>
    litC '-' (monthAbb (fun mo =>
      litC '-' (num4 (fun y =>
        litC ' ' (num2or1 0 23 (fun hh =>
          litC ':' (num2or1 0 59 (fun mi =>
            litC ':' (num2or1 0 61 (fun ss =>
              litC '.' (fracP (fun rest =>
                if rest = [] then some ⟨y, mo, d, hh, mi, ss⟩ else none))))))))))))) l

/-- Format 2 of the source: compact numeric. -/
def fmt2 (l : List Char) : Option Tm :=
  num4 (fun y =>
    num2or1 1 12 (fun mo =>
      num2or1 1 31 (fun d =>
        num2or1 0 23 (fun hh =>
          num2or1 0 59 (fun mi =>
            num2or1 0 61 (fun ss =>
              fracP (fun rest =>
                if rest = [] then some ⟨y, mo, d, hh, mi, ss⟩ else none))))))) l

/-- Format 3 of the source: ISO with fraction. -/
def fmt3 (l : List Char) : Option Tm :=
  num4 (fun y =>
    litC '-' (num2or1 1 12 (fun mo =>
      litC '-' (num2or1 1 31 (fun d =>
        litC 'T' (num2or1 0 23 (fun hh =>
          litC ':' (num2or1 0 59 (fun mi =>
            litC ':' (num2or1 0 61 (fun ss =>
              litC '.' (fracP (fun rest =>
                if rest = [] then some ⟨y, mo, d, hh, mi, ss⟩ else none))))))))))))) l

/-- Format 4 of the source: ISO with fraction and zone suffix. -/
def fmt4 (l : List Char) : Option Tm :=
  num4 (fun y =>
    litC '-' (num2or1 1 12 (fun mo =>
      litC '-' (num2or1 1 31 (fun d =>
        litC 'T' (num2or1 0 23 (fun hh =>
          litC ':' (num2or1 0 59 (fun mi =>
            litC ':' (num2or1 0 61 (fun ss =>
              litC '.' (fracP (fun rest =>
                if rest = ['Z'] then some ⟨y, mo, d, hh, mi, ss⟩ else none))))))))))))) l

/-- Two-digit zero-padded decimal (strftime `%m`, `%d`, `%H`, `%M`, `%S`). -/
def pad2 (n : Nat) : List Char := leftpad '0' 2 (natChars n)

/-- Canonical compact timestamp produced by the source's
`strftime` with the year-month-day-T-hour-minute-second layout. -/
def canonTs (t : Tm) : String :=
  String.mk (natChars t.year ++ pad2 t.month ++ pad2 t.day ++ 'T' ::
    (pad2 t.hour ++ pad2 t.minute ++ pad2 t.sec))

/-- The four timestamp formats in the order the source tries them. -/
def tsFormats : List (List Char → Option Tm) := [fmt1, fmt2, fmt3, fmt4]

/-- The source's inner loop over the four formats: each successful parse
rewrites the (string) value to the canonical timestamp; failures and
non-string values pass through unchanged. -/
def tryTimeFormats (v : Value) : Value :=
  tsFormats.foldl
    (fun v f =>
      match v with
      | .str s =>
          match f s.data with
          | some t => .str (canonTs t)
          | none => v
      | _ => v) v

/-- True for metadata field names the source rescales (`re.search` for
LAT-or-LONG on the field name). -/
def latlongKey (k : String) : Bool := containsSub k "LAT" || containsSub k "LONG"

/-- Normalization of one raw metadata entry in `ID.gdalinfo`: literal-type
coercion, the timestamp-format loop, then micro-degree rescaling of fields
whose name contains LAT or LONG.  Dividing a string raises TypeError. -/
def normalizeEntry (key raw : String) : Except PyError Value :=
  let v := tryTimeFormats (parse_literal (pyStrip raw))
  if latlongKey key then
    match v with
    | .int n => .ok (.float ((n : ℚ) / 1000000))
    | .float q => .ok (.float (q / 1000000))
    | .str _ => .error .typeError
  else .ok v

/-! ## Scene locators and the archive view -/

/-- Storage container of a scene: a plain directory, a zip archive, a tar
archive, or a bare file (the fall-through branch of `findfiles`). -/
inductive ContainerKind where
  | dir
  | zip
  | tar
  | plain
deriving DecidableEq, Repr

/-- A scene locator: the (real) path, the detected container kind, and the
member names the container holds (relative paths for a directory, archive
member names for zip/tar, unused for a bare file). -/
structure Scene where
  path : String
  kind : ContainerKind
  members : List String
deriving DecidableEq, Repr

/-- The `ID.compression` property: zip and tar report their kind, a directory
or bare file reports none. -/
def Scene.compression (s : Scene) : Option String :=
  match s.kind with
  | .dir => none
  | .zip => some "zip"
  | .tar => some "tar"
  | .plain => none

/-- Modelled from the spec: `ancillary.finder` (imported by the source but not
under src/) recursively lists the files of a directory and returns those whose
basename matches the pattern. -/
def finder (root : String) (members : List String) (pat : String → Bool) : List String :=
  (members.filter (fun m => pat (pyBasename m))).map (pyJoin root)

/-- The `ID.findfiles` lookup: a directory whose basename matches is returned
itself, otherwise its contents are searched; zip members are matched with
slashes stripped at both ends; tar members are matched as named; a bare file
is matched against its whole path. -/
def findfiles (s : Scene) (pat : String → Bool) : List String :=
  match s.kind with
  | .dir =>
      if pat (pyBasename s.path) then [s.path] else finder s.path s.members pat
  | .zip =>
      (s.members.filter (fun m => pat (pyStripChar '/' m))).map
        (fun m => pyJoin s.path (pyStripChar '/' m))
  | .tar =>
      (s.members.filter pat).map (pyJoin s.path)
  | .plain =>
      if pat s.path then [s.path] else []

/-- The `ID.examine` step: require exactly one file matching the handler's
naming pattern; zero matches means the naming convention does not apply, two
or more mean ambiguity.  `cls` is the handler class name used in the error. -/
def examine (cls : String) (s : Scene) (pat : String → Bool) : Except PyError String :=
  let files := findfiles s pat
  if files.length = 1 then .ok files.head!
  else if files.length = 0 then .error (.notRecognized cls)
  else .error .ambiguous

/-! ## The ESA naming grammar

Hand-translation of the ESA filename regex of `ESA.__init__`: fixed-width
fields, a product identifier of the form satellite-mode-level, and an optional
compressed-extension suffix; the regex ends anchored at the end of the
subject.  `esaParse` matches at the start of a character list and must consume
it entirely; `esaSearch` is `re.search`, trying every start position. -/

/-- Captures of the ESA filename grammar that the source reads back. -/
structure EsaCaps where
  productId : String
  satelliteId : String
  extension : String
deriving DecidableEq, Repr

/-- Three-letter mission prefix of the product identifier. -/
def esaSat3 (l : List Char) : Bool := l = "SAR".data ∨ l = "ASA".data

/-- Three-letter image-mode token of the product identifier. -/
def esaMode3 (l : List Char) : Bool :=
  ["IMS", "IMP", "IMG", "IMM", "IM_", "APS", "APP", "APG", "APM", "AP_",
   "WVI", "WVS", "WVW", "WV_"].any (fun m => l = m.data)

/-- Uppercase letter or dash (the originator field alphabet). -/
def upperOrDash (c : Char) : Bool := ('A' ≤ c ∧ c ≤ 'Z') ∨ c = '-'

/-- Uppercase letter or digit (the phase field alphabet). -/
def upperOrDigit (c : Char) : Bool := ('A' ≤ c ∧ c ≤ 'Z') ∨ c.isDigit

/-- Anchored parse of the satellite-mode-level product identifier (shared by
the leading group of `ESA.pattern` and by `ESA.pattern_pid`): returns the
ten-character product identifier, the captured image mode, and the remaining
input. -/
def esaPidParse : List Char → Option (String × String × List Char)
  | s1 :: s2 :: s3 :: '_' :: m1 :: m2 :: m3 :: '_' :: lv1 :: lv2 :: rest =>
      if esaSat3 [s1, s2, s3] ∧ esaMode3 [m1, m2, m3] ∧
          (lv1 = '0' ∨ lv1 = '1' ∨ lv1 = '2' ∨ lv1 = 'B') ∧ (lv2 = 'C' ∨ lv2 = 'P') then
        some (String.mk [s1, s2, s3, '_', m1, m2, m3, '_', lv1, lv2],
              String.mk [m1, m2, m3], rest)
      else none
  | _ => none

/-- Anchored match of the ESA filename grammar, consuming the whole list. -/
def esaParse (l : List Char) : Option EsaCaps :=
  match esaPidParse l with
  | some (pid, _, rest2) =>
          match rest2 with
          | stage :: o1 :: o2 :: o3 :: rest3 =>
            if ('A' ≤ stage ∧ stage ≤ 'Z') ∧ upperOrDash o1 ∧ upperOrDash o2 ∧
                upperOrDash o3 then
              match rest3.take 8, rest3.drop 8 with
              | day8, '_' :: rest4 =>
                if day8.length = 8 ∧ day8.all Char.isDigit then
                  match rest4.take 6, rest4.drop 6 with
                  | time6, '_' :: rest5 =>
                    if time6.length = 6 ∧ time6.all Char.isDigit then
                      match rest5.take 8, rest5.drop 8 with
                      | dur8, phase :: rest6 =>
                        if dur8.length = 8 ∧ dur8.all Char.isDigit ∧
                            upperOrDigit phase then
                          match rest6.take 3, rest6.drop 3 with
                          | cyc3, '_' :: rest7 =>
                            if cyc3.length = 3 ∧ cyc3.all Char.isDigit then
                              match rest7.take 5, rest7.drop 5 with
                              | rel5, '_' :: rest8 =>
                                if rel5.length = 5 ∧ rel5.all Char.isDigit then
                                  match rest8.take 5, rest8.drop 5 with
                                  | abs5, '_' :: rest9 =>
                                    if abs5.length = 5 ∧ abs5.all Char.isDigit then
                                      match rest9.take 4, rest9.drop 4 with
                                      | cnt4, '.' :: se1 :: se2 :: rest10 =>
                                        if cnt4.length = 4 ∧ cnt4.all Char.isDigit ∧
                                            (se1 = 'E' ∨ se1 = 'N') ∧
                                            (se2 = '1' ∨ se2 = '2') then
                                          if rest10 = [] ∨ rest10 = ".zip".data ∨
                                              rest10 = ".tar.gz".data then
                                            some
                                              { productId := pid,
                                                satelliteId := String.mk [se1, se2],
                                                extension := String.mk rest10 }
                                          else none
                                        else none
                                      | _, _ => none
                                    else none
                                  | _, _ => none
                                else none
                              | _, _ => none
                            else none
                          | _, _ => none
                        else none
                      | _, _ => none
                    else none
                  | _, _ => none
                else none
              | _, _ => none
            else none
          | _ => none
  | none => none

/-- Model of `re.match` with the ESA grammar: anchored at the start of the
string (the regex itself forces the end anchor). -/
def esaMatch (s : String) : Option EsaCaps := esaParse s.data

/-- Model of `re.search` with the ESA grammar: the pattern may start anywhere. -/
def esaSearch (s : String) : Bool := s.data.tails.any (fun t => (esaParse t).isSome)

/-- Anchored match of the product-identifier sub-grammar of
`ESA.pattern_pid`, returning the captured image mode; trailing input after
the processing level is permitted since `re.match` needs no end anchor. -/
def esaPidMatch (s : String) : Option String :=
  (esaPidParse s.data).map (fun t => t.2.1)

/-! ## The SAFE naming grammar

Hand-translation of the Sentinel-1 top-level filename regex of
`SAFE.__init__`.  The regex is anchored at both ends, so `re.search` with it
can only match a whole subject string. -/

/-- Captures of the SAFE filename grammar (its named groups). -/
structure SafeCaps where
  sensor : String
  beam : String
  product : String
  category : String
  pols : String
  start : String
  stop : String
deriving DecidableEq, Repr

/-- The two-letter beam/swath alternatives of the SAFE grammar. -/
def safeBeam2 (l : List Char) : Bool :=
  ["S1", "S2", "S3", "S4", "S5", "S6", "IW", "EW", "WV", "EN",
   "N1", "N2", "N3", "N4", "N5", "N6", "IM"].any (fun m => l = m.data)

/-- Uppercase hexadecimal digit. -/
def hexUpper (c : Char) : Bool := c.isDigit ∨ ('A' ≤ c ∧ c ≤ 'F')

/-- A start/stop timestamp token: eight digits, a literal T, six digits. -/
def ts15 (l : List Char) : Bool :=
  l.length = 15 ∧ (l.take 8).all Char.isDigit ∧ l.drop 8 ≠ [] ∧
    l.get? 8 = some 'T' ∧ (l.drop 9).all Char.isDigit

/-- Anchored match of the SAFE filename grammar, consuming the whole list. -/
def safeParse (l : List Char) : Option SafeCaps :=
  match l.take 3, l.drop 3 with
  | ['S', '1', ab], '_' :: rest1 =>
    if ab = 'A' ∨ ab = 'B' then
      match rest1.take 2, rest1.drop 2 with
      | beam, '_' :: rest2 =>
        if safeBeam2 beam then
          match rest2.take 3, rest2.drop 3 with
          | product, res :: '_' :: lvl :: cat :: p1 :: p2 :: '_' :: rest3 =>
            if (product = "SLC".data ∨ product = "GRD".data ∨ product = "OCN".data) ∧
                (res = 'F' ∨ res = 'H' ∨ res = 'M' ∨ res = '_') ∧
                (lvl = '1' ∨ lvl = '2') ∧ (cat = 'S' ∨ cat = 'A') ∧
                ([p1, p2] = "SH".data ∨ [p1, p2] = "SV".data ∨
                 [p1, p2] = "DH".data ∨ [p1, p2] = "DV".data) then
              match rest3.take 15, rest3.drop 15 with
              | start, '_' :: rest4 =>
                if ts15 start then
                  match rest4.take 15, rest4.drop 15 with
                  | stop, '_' :: rest5 =>
                    if ts15 stop then
                      match rest5.take 6, rest5.drop 6 with
                      | orb6, '_' :: rest6 =>
                        if orb6.length = 6 ∧ orb6.all Char.isDigit then
                          match rest6.take 6, rest6.drop 6 with
                          | dtid6, '_' :: rest7 =>
                            if dtid6.length = 6 ∧ dtid6.all hexUpper then
                              match rest7.take 4, rest7.drop 4 with
                              | crc4, rest8 =>
                                if crc4.length = 4 ∧ crc4.all hexUpper ∧
                                    rest8 = ".SAFE".data then
                                  some
                                    { sensor := String.mk ['S', '1', ab],
                                      beam := String.mk beam,
                                      product := String.mk product,
                                      category := String.mk [cat],
                                      pols := String.mk [p1, p2],
                                      start := String.mk start,
                                      stop := String.mk stop }
                                else none
                            else none
                          | _, _ => none
                        else none
                      | _, _ => none
                    else none
                  | _, _ => none
                else none
              | _, _ => none
            else none
          | _, _ => none
        else none
      | _, _ => none
    else none
  | _, _ => none

/-- Model of `re.match` (and, because the grammar starts with a caret, also
of `re.search`) with the SAFE grammar. -/
def safeMatch (s : String) : Option SafeCaps := safeParse s.data

/-! ## Header discovery and `ID.gdalinfo` -/

/-- The header-descriptor lookup pattern of `ID.gdalinfo` applied by
`re.search`: a file ending in .N1/.N2/.E1/.E2 or DAT_01.001 or manifest.safe,
or containing product.xml. -/
def headerPat (s : String) : Bool :=
  strEndsWith s ".N1" || strEndsWith s ".N2" || strEndsWith s ".E1" || strEndsWith s ".E2" ||
  strEndsWith s "DAT_01.001" || containsSub s "product.xml" || strEndsWith s "manifest.safe"

/-- The extension-to-sensor table of `ID.gdalinfo`. -/
def extLookup (ext : String) : Option String :=
  [(".N1", "ASAR"), (".E1", "ERS1"), (".E2", "ERS2")].lookup ext

/-- The sensor-setting step of `ID.gdalinfo` (source lines 106-109): look the
header's `os.path.splitext` extension up in the fixed table. -/
def sensorFromHeader (header : String) : Option String :=
  extLookup (splitextExt header)

/-- The external raster-metadata reader (GDAL): maps a header path to its
string-keyed metadata items, in iteration order. -/
def GdalEnv : Type := String → List (String × String)

/-- Insert-or-overwrite into the attribute dictionary (Python `setattr`). -/
def setAttr (attrs : List (String × Value)) (k : String) (v : Value) :
    List (String × Value) :=
  if attrs.any (fun p => p.1 = k) then
    attrs.map (fun p => if p.1 = k then (k, v) else p)
  else attrs ++ [(k, v)]

/-- Attribute lookup (Python `getattr`). -/
def getAttr (attrs : List (String × Value)) (k : String) : Option Value :=
  (attrs.find? (fun p => p.1 = k)).map Prod.snd

/-- Result of `ID.gdalinfo`: the attribute dictionary it populated. -/
structure GdalInfoOut where
  attrs : List (String × Value)
deriving DecidableEq, Repr

/-- The `ID.gdalinfo` step: locate exactly one header descriptor, set the
sensor from its extension, then normalize every raw metadata item of the
external reader into an object attribute. -/
def gdalinfo (env : GdalEnv) (scene : Scene) : Except PyError GdalInfoOut := do
  let files := findfiles scene headerPat
  let header ←
    if files.length = 1 then Except.ok files.head!
    else if files.length > 1 then Except.error .ambiguous
    else Except.error .fileTypeNotSupported
  let init : List (String × Value) :=
    match sensorFromHeader header with
    | some sn => [("sensor", .str sn)]
    | none => []
  let attrs ← (env header).foldlM
    (fun acc item => do
      let v ← normalizeEntry item.1 item.2
      pure (setAttr acc item.1 v))
    init
  pure { attrs := attrs }

/-! ## The ESA handler -/

/-- Attribute lookup that raises AttributeError when the name is absent. -/
def getAttrE (attrs : List (String × Value)) (k : String) : Except PyError Value :=
  match getAttr attrs k with
  | some v => .ok v
  | none => .error (.attributeError k)

/-- State of a successfully constructed ESA handler instance.  The named
fields assigned by the constructor are kept apart from the metadata attribute
dictionary; a metadata item shadowing one of the constructor-assigned names
(none exists in the sensors' header conventions) is outside the model. -/
structure EsaHandler where
  scene : Scene
  file : String
  attrs : List (String × Value)
  sensor : Value
  polarisations : Option (List String)
  orbit : String
  start : Value
  stop : Value
  spacing : Value × Value
  looks : Value × Value
deriving DecidableEq, Repr

/-- The `ESA.__init__` constructor: examine, re-match the file basename (a
failed `re.match` yields None, whose `.group` raises AttributeError), reject
level-0 products, run gdalinfo, then read the named metadata attributes.  The
polarisation scan iterates the attribute dictionary for TX_RX_POLAR names. -/
def ESA.construct (env : GdalEnv) (scene : Scene) (_mode : String) :
    Except PyError EsaHandler := do
  let file ← examine "ESA" scene esaSearch
  let caps ←
    match esaMatch (pyBasename file) with
    | some c => Except.ok c
    | none => Except.error (.attributeError "group")
  if containsSub caps.productId "IM__0" then
    throw (.unsupportedProduct "product level 0 not supported (yet)")
  let info ← gdalinfo env scene
  let attrs := info.attrs
  let sensor ← getAttrE attrs "sensor"
  let polarisations ←
    if sensor = .str "ASAR" then
      (attrs.filter (fun p => containsSub p.1 "TX_RX_POLAR")).mapM
        (fun p =>
          match p.2 with
          | .str s => Except.ok (pyReplace s "/" "")
          | _ => Except.error (.attributeError "replace")) >>=
        fun l => pure (some l)
    else if sensor = .str "ERS1" ∨ sensor = .str "ERS2" then pure (some ["VV"])
    else pure none
  let pass ← getAttrE attrs "SPH_PASS"
  let orbit ←
    match pass with
    | .str s =>
        match s.data with
        | c :: _ => Except.ok (String.mk [c])
        | [] => Except.error .indexError
    | _ => Except.error .typeError
  let start ← getAttrE attrs "MPH_SENSING_START"
  let stop ← getAttrE attrs "MPH_SENSING_STOP"
  let rsp ← getAttrE attrs "SPH_RANGE_SPACING"
  let asp ← getAttrE attrs "SPH_AZIMUTH_SPACING"
  let rlk ← getAttrE attrs "SPH_RANGE_LOOKS"
  let alk ← getAttrE attrs "SPH_AZIMUTH_LOOKS"
  pure { scene := scene, file := file, attrs := attrs, sensor := sensor,
         polarisations := polarisations, orbit := orbit, start := start,
         stop := stop, spacing := (rsp, asp), looks := (rlk, alk) }

/-- Right-pad with underscores to width four (the format spec used for the
sensor and mode fields of the output names). -/
def padTo4 (s : String) : String := s ++ String.mk (List.replicate (4 - s.length) '_')

/-- Width-four padding of a formatted value; the float case is left out of the
model (no modelled code path produces a float there). -/
def valuePad4 : Value → Option String
  | .str s => some (padTo4 s)
  | .int n => some (padTo4 (intStr n))
  | .float _ => none

/-- The `ESA.outname_base` method.  It re-matches the scene basename against
the full naming grammar (a failed match makes `match1.group` raise
AttributeError, modelled as `none`), extracts the image mode with the
product-identifier sub-grammar, and joins the padded fields.  Joining a
non-string start value would raise TypeError, also modelled as `none`. -/
def EsaHandler.outname_base (h : EsaHandler) : Option String :=
  match esaMatch (pyBasename h.scene.path) with
  | none => none
  | some caps =>
      match esaPidMatch caps.productId with
      | none => none
      | some mode =>
          match valuePad4 h.sensor, h.start with
          | some sens, .str st =>
              some (String.intercalate "_" [sens, padTo4 mode, h.orbit, st])
          | _, _ => none

/-! ## The SAFE handler -/

/-- Non-overlapping left-to-right runs of exactly six decimal digits (model of
`re.findall` with a six-digit pattern). -/
def findall6 : List Char → List (List Char)
  | c1 :: c2 :: c3 :: c4 :: c5 :: c6 :: rest =>
      if [c1, c2, c3, c4, c5, c6].all Char.isDigit then
        [c1, c2, c3, c4, c5, c6] :: findall6 rest
      else findall6 (c2 :: c3 :: c4 :: c5 :: c6 :: rest)
  | _ :: rest => findall6 rest
  | [] => []

/-- The orbit-direction expression of `SAFE.__init__` line 454: the second
six-digit run of the start timestamp, compared against 120000.  A missing
second run would raise IndexError. -/
def safeOrbitExpr (start : String) : Except PyError String :=
  match (findall6 start.data).get? 1 with
  | some t => .ok (if digitsVal t < 120000 then "D" else "A")
  | none => .error .indexError

/-- State of a successfully constructed SAFE handler instance.  As with the
ESA handler, the named fields are kept apart from the metadata dictionary. -/
structure SafeHandler where
  scene : Scene
  file : String
  sensor : String
  beam : String
  product : String
  category : String
  pols : String
  start : String
  stop : String
  polarisations : List String
  orbit : String
  projection : String
  spacing : Option (Value × Value)
  attrs : List (String × Value)
deriving DecidableEq, Repr

/-- The `SAFE.__init__` constructor: examine, re-match the file basename
(raising the naming-convention IOError when it fails), copy the named
captures, look up the polarisation list, derive the orbit direction, and in
full mode run gdalinfo and read the pixel/line spacing attributes. -/
def SAFE.construct (env : GdalEnv) (scene : Scene) (mode : String) :
    Except PyError SafeHandler := do
  let file ← examine "SAFE" scene (fun s => (safeMatch s).isSome)
  let caps ←
    match safeMatch (pyBasename file) with
    | some c => Except.ok c
    | none => Except.error (.notRecognized "S1")
  let polarisations :=
    if caps.pols = "SH" then ["HH"]
    else if caps.pols = "SV" then ["VV"]
    else if caps.pols = "DH" then ["HH", "HV"]
    else ["VV", "VH"]
  let orbit ← safeOrbitExpr caps.start
  let projection := "+proj=longlat +ellps=WGS84 +datum=WGS84 +no_defs"
  if mode = "full" then
    let info ← gdalinfo env scene
    let px ← getAttrE info.attrs "PIXEL_SPACING"
    let ln ← getAttrE info.attrs "LINE_SPACING"
    pure { scene := scene, file := file, sensor := caps.sensor, beam := caps.beam,
           product := caps.product, category := caps.category, pols := caps.pols,
           start := caps.start, stop := caps.stop, polarisations := polarisations,
           orbit := orbit, projection := projection,
           spacing := some (px, ln), attrs := info.attrs }
  else
    pure { scene := scene, file := file, sensor := caps.sensor, beam := caps.beam,
           product := caps.product, category := caps.category, pols := caps.pols,
           start := caps.start, stop := caps.stop, polarisations := polarisations,
           orbit := orbit, projection := projection,
           spacing := none, attrs := [] }

/-- The entry guards of `SAFE.convert2gamma`: a still-packed scene raises
RuntimeError, then ocean and annotation-only products are rejected with
IOError.  The remainder of the method delegates each matched component to the
external processor and is outside the pure model. -/
def SAFE.convert2gammaGuards (h : SafeHandler) : Except PyError Unit := do
  if h.scene.compression ≠ none then throw .runtimeNotUnpacked
  if h.product = "OCN" then
    throw (.unsupportedProduct "Sentinel-1 OCN products are not supported")
  if h.category = "A" then
    throw (.unsupportedProduct "Sentinel-1 annotation-only products are not supported")
  pure ()

/-- The `SAFE.outname_base` method: underscore-joined padded sensor and beam
with orbit and start fields. -/
def SafeHandler.outname_base (h : SafeHandler) : String :=
  String.intercalate "_" [padTo4 h.sensor, padTo4 h.beam, h.orbit, h.start]

/-! ## The identify dispatcher -/

/-- A constructed metadata handler: one of the two `ID` subclasses defined in
the source (the CEOS, RS2 and ERS classes are commented out). -/
inductive Handler where
  | esa : EsaHandler → Handler
  | safe : SafeHandler → Handler
deriving DecidableEq, Repr

/-- The `identify` dispatcher: try each registered handler constructor in
subclass order (ESA, then SAFE), swallowing IOError and trying the next;
any other exception propagates; if every constructor failed with IOError,
raise the data-format-not-supported IOError. -/
def identify (env : GdalEnv) (scene : Scene) (mode : String) : Except PyError Handler :=
  match ESA.construct env scene mode with
  | .ok h => .ok (.esa h)
  | .error e =>
      if e.isIOError then
        match SAFE.construct env scene mode with
        | .ok h => .ok (.safe h)
        | .error e2 => if e2.isIOError then .error .unsupported else .error e2
      else .error e

/-! ## The tile resolver (`ID.getHGT`) -/

/-- A geodetic footprint, the output of `getCorners`. -/
structure Corners where
  xmin : ℚ
  xmax : ℚ
  ymin : ℚ
  ymax : ℚ
deriving DecidableEq, Repr

/-- Python `range(a, b + 1)`: the integers from `a` to `b` inclusive. -/
def intRange (a b : Int) : List Int :=
  (List.range (b + 1 - a).toNat).map (fun i => a + (i : Int))

/-- The latitude formatting pipeline of `getHGT`: zero-fill to two digits
(three with a sign), then replace the sign by S or prepend N. -/
def latFmtCode (x : Int) : String :=
  let s := intStr x
  let z := pyZfill s (2 + s.length - (pyStripChar '-' s).length)
  if z.data.contains '-' then pyReplace z "-" "S" else "N" ++ z

/-- The longitude formatting pipeline of `getHGT`: zero-fill to three digits
(four with a sign), then replace the sign by W or prepend E. -/
def lonFmtCode (x : Int) : String :=
  let s := intStr x
  let z := pyZfill s (3 + s.length - (pyStripChar '-' s).length)
  if z.data.contains '-' then pyReplace z "-" "W" else "E" ++ z

/-- The `ID.getHGT` tile resolver: enumerate the integer latitudes and
longitudes of the footprint (floor of each bound, both inclusive), format
them, and produce the full cross product of `.hgt` tile names. -/
def getHGT (c : Corners) : List String :=
  let lat := (intRange (Rat.floor c.ymin) (Rat.floor c.ymax)).map latFmtCode
  let lon := (intRange (Rat.floor c.xmin) (Rat.floor c.xmax)).map lonFmtCode
  lat.flatMap (fun x => lon.map (fun y => x ++ y ++ ".hgt"))

/-! ## The archive materializer (`ID._unpack`) -/

/-- Ordered insertion for the sort below. -/
def insertLe (x : String) : List String → List String
  | [] => [x]
  | y :: ys => if listLe x.data y.data then x :: y :: ys else y :: insertLe x ys

/-- Model of Python `sorted` on a list of strings (insertion sort). -/
def pySorted (l : List String) : List String := l.foldr insertLe []

/-- A tar archive member: its name (as reported by `getnames`, without a
trailing slash) and whether it is a directory. -/
structure ArchiveMember where
  name : String
  isDir : Bool
deriving DecidableEq, Repr

/-- Materialized filesystem entries: target path plus a directory flag.  File
entries record only their path; in the prefix-stripping tar branch the source
writes `member.tobuf()` rather than the member's data, which the path-level
model does not track. -/
abbrev Materialized : Type := List (String × Bool)

/-- The tar branch of `ID._unpack`.  When the common character prefix of the
member names is itself a member and a directory, the remaining members are
written with the prefix (plus slash) removed from their names; when it is a
member but not a directory, the archive is extracted verbatim; when the
common prefix is not a member name, the branch falls through and nothing at
all is extracted (the source has no else for the outer if). -/
def tarUnpack (members : List ArchiveMember) (directory : String) : Materialized :=
  let names := members.map (·.name)
  let header := commonRoot names
  if header ∈ names then
    if (members.reverse.find? (fun m => m.name = header)).any (·.isDir) then
      ((pySorted names).filter (fun i => i ≠ header)).map
        (fun item =>
          (pyJoin directory (pyReplace item (header ++ "/") ""),
           (members.reverse.find? (fun m => m.name = item)).any (·.isDir)))
    else
      members.map (fun m => (pyJoin directory m.name, m.isDir))
  else
    []

/-- The zip branch of `ID._unpack`: member names carry a trailing slash for
directories; when the common character prefix ends with a slash the prefix is
stripped from the remaining members, otherwise the archive is extracted
verbatim. -/
def zipUnpack (names : List String) (directory : String) : Materialized :=
  let header := commonRoot names
  if strEndsWith header "/" then
    ((pySorted names).filter (fun i => i ≠ header)).map
      (fun item => (pyJoin directory (pyReplace item header ""), strEndsWith item "/"))
  else
    names.map (fun n => (pyJoin directory n, strEndsWith n "/"))

/-- Result of `ID._unpack`: the materialized entries together with the rebased
locator state (`self.scene = directory` and the primary file moved under it). -/
structure UnpackResult where
  entries : Materialized
  scene : String
  file : String
deriving DecidableEq, Repr

/-- The `ID._unpack` method on a tar scene, including the final locator rebasing. -/
def unpackTarModel (members : List ArchiveMember) (directory file : String) :
    UnpackResult :=
  { entries := tarUnpack members directory,
    scene := directory,
    file := pyJoin directory (pyBasename file) }

/-- The `ID._unpack` method on a zip scene, including the final locator rebasing. -/
def unpackZipModel (names : List String) (directory file : String) : UnpackResult :=
  { entries := zipUnpack names directory,
    scene := directory,
    file := pyJoin directory (pyBasename file) }

/-! ## Spec-side comparison definitions

These definitions follow the wording of the specification; the theorems below
compare them with the source-translated pipelines. -/

/-- Latitude tile label as the spec words it: hemisphere letter (S for
negative, N otherwise) plus a two-digit zero-padded absolute degree value. -/
def hemiLat (x : Int) : String :=
  (if x < 0 then "S" else "N") ++ String.mk (leftpad '0' 2 (natChars x.natAbs))

/-- Longitude tile label as the spec words it: hemisphere letter (W for
negative, E otherwise) plus a three-digit zero-padded absolute degree value. -/
def hemiLon (x : Int) : String :=
  (if x < 0 then "W" else "E") ++ String.mk (leftpad '0' 3 (natChars x.natAbs))

/-- First-successful-parse reading of the timestamp loop: the first of the
four formats, in order, that parses the original string. -/
def firstTsParse (s : String) : Option Tm :=
  (fmt1 s.data).orElse fun _ =>
    (fmt2 s.data).orElse fun _ =>
      (fmt3 s.data).orElse fun _ => fmt4 s.data

/-! ## Concrete scenes, environments and handler states used by the
counterexample and witness theorems -/

/-- An external reader returning no metadata at all. -/
def envEmpty : GdalEnv := fun _ => []

/-- A plain-file scene whose name is a level-0 ESA product. -/
def level0Scene : Scene :=
  { path := "/d/ASA_IM__0CNPDE20040102_102928_000000162023_00051_09624_0240.N1",
    kind := .plain, members := [] }

/-- A zip scene whose only grammar-matching member carries a .zip suffix, so
the header lookup finds the DAT_01.001 member and sets no sensor. -/
def datHeaderScene : Scene :=
  { path := "/d/foo.zip", kind := .zip,
    members := ["SAR_IMP_1PXASI19920419_110159_00000017C083_00323_03975_8482.E1.zip",
                "DAT_01.001"] }

/-- A zip scene whose container name does not follow the ESA grammar although
its single member does. -/
def renamedZipScene : Scene :=
  { path := "/d/foo.zip", kind := .zip,
    members := ["SAR_IMP_1PXASI19920419_110159_00000017C083_00323_03975_8482.E1"] }

/-- A canonically named ESA zip scene. -/
def esaZipScene : Scene :=
  { path := "/d/SAR_IMP_1PXASI19920419_110159_00000017C083_00323_03975_8482.E1.zip",
    kind := .zip,
    members := ["SAR_IMP_1PXASI19920419_110159_00000017C083_00323_03975_8482.E1"] }

/-- Header metadata (integer spacings) for the ERS scenes above. -/
def ersEnv : GdalEnv := fun _ =>
  [("SPH_PASS", "DESCENDING"),
   ("MPH_SENSING_START", "19-APR-1992 11:01:59.123456"),
   ("MPH_SENSING_STOP", "19-APR-1992 11:02:16.123456"),
   ("SPH_RANGE_SPACING", "12"), ("SPH_AZIMUTH_SPACING", "12"),
   ("SPH_RANGE_LOOKS", "1"), ("SPH_AZIMUTH_LOOKS", "5")]

/-- A directory scene following the SAFE naming grammar. -/
def safeDirScene : Scene :=
  { path := "/d/S1A_EW_GRDM_1SDH_20150408T053103_20150408T053203_005388_006D8D_5FAC.SAFE",
    kind := .dir, members := [] }

/-- A directory scene matching no registered naming grammar. -/
def unknownScene : Scene := { path := "/d/x", kind := .plain, members := [] }

/-- A directory scene with ESA naming and no grammar-matching contents. -/
def emptyDirScene : Scene := { path := "/d/empty", kind := .dir, members := [] }

/-- A zip scene holding two members that both match the ESA grammar. -/
def doubleZipScene : Scene :=
  { path := "/d/two.zip", kind := .zip,
    members := ["SAR_IMP_1PXASI19920419_110159_00000017C083_00323_03975_8482.E1",
                "SAR_IMP_1PXASI19920419_110159_00000017C083_00323_03975_8482.E1.zip"] }

/-- An unpacked SAFE handler state for an ocean product. -/
def ocnHandler : SafeHandler :=
  { scene := { path := "/d/u", kind := .dir, members := [] },
    file := "/d/u", sensor := "S1A", beam := "WV", product := "OCN",
    category := "S", pols := "SV", start := "20150408T053103",
    stop := "20150408T053203", polarisations := ["VV"], orbit := "D",
    projection := "+proj=longlat +ellps=WGS84 +datum=WGS84 +no_defs",
    spacing := none, attrs := [] }

/-- An unpacked SAFE handler state for an annotation-only product. -/
def annHandler : SafeHandler :=
  { scene := { path := "/d/u", kind := .dir, members := [] },
    file := "/d/u", sensor := "S1A", beam := "IW", product := "SLC",
    category := "A", pols := "DV", start := "20150408T150000",
    stop := "20150408T150100", polarisations := ["VV", "VH"], orbit := "A",
    projection := "+proj=longlat +ellps=WGS84 +datum=WGS84 +no_defs",
    spacing := none, attrs := [] }

/-- An ESA handler state as constructed from the canonically named zip scene. -/
def witEsaHandler : EsaHandler :=
  { scene := esaZipScene,
    file := "/d/SAR_IMP_1PXASI19920419_110159_00000017C083_00323_03975_8482.E1.zip/SAR_IMP_1PXASI19920419_110159_00000017C083_00323_03975_8482.E1",
    attrs := [], sensor := .str "ERS1", polarisations := some ["VV"],
    orbit := "D", start := .str "19920419T110159", stop := .str "19920419T110216",
    spacing := (.int 12, .int 12), looks := (.int 1, .int 5) }

/-- An ESA handler state whose scene path does not follow the naming grammar. -/
def witEsaBad : EsaHandler :=
  { scene := renamedZipScene,
    file := "/d/foo.zip/SAR_IMP_1PXASI19920419_110159_00000017C083_00323_03975_8482.E1",
    attrs := [], sensor := .str "ERS1", polarisations := some ["VV"],
    orbit := "D", start := .str "19920419T110159", stop := .str "19920419T110216",
    spacing := (.int 12, .int 12), looks := (.int 1, .int 5) }

/-- The footprint of the spec's tile-enumeration example, as exact rationals
(xmin 10.2, xmax 11.8, ymin -1.3, ymax 0.4). -/
def exampleCorners : Corners :=
  { xmin := Rat.mk' 51 5 (by decide) (by decide),
    xmax := Rat.mk' 59 5 (by decide) (by decide),
    ymin := Rat.mk' (-13) 10 (by decide) (by decide),
    ymax := Rat.mk' 2 5 (by decide) (by decide) }

/-! ## Claim C2: examine requires exactly one top-level match -/

/-- Claim C2: for every handler class, scene and naming pattern, `examine`
requires exactly one matching file: with exactly one match it records that
file as the descriptor, with zero matches it fails with the
naming-convention-mismatch IOError, and with more than one it fails with the
ambiguity IOError. -/
theorem examine_unique_match (cls : String) (s : Scene) (pat : String → Bool) :
    (∀ f, findfiles s pat = [f] → examine cls s pat = .ok f) ∧
    (findfiles s pat = [] → examine cls s pat = .error (.notRecognized cls)) ∧
    (2 ≤ (findfiles s pat).length → examine cls s pat = .error .ambiguous) := by
  refine ⟨?_, ?_, ?_⟩
  · intro f hf
    simp [examine, hf]
  · intro h0
    simp [examine, h0]
  · intro h2
    have h1 : ¬ (findfiles s pat).length = 1 := by omega
    have h0 : ¬ (findfiles s pat).length = 0 := by omega
    simp [examine, h1, h0]

/-- Witness for C2: the three branches of `examine_unique_match` at concrete
scenes, using the ESA naming pattern. -/
theorem examine_unique_match_witness :
    examine "ESA" esaZipScene esaSearch =
      .ok "/d/SAR_IMP_1PXASI19920419_110159_00000017C083_00323_03975_8482.E1.zip/SAR_IMP_1PXASI19920419_110159_00000017C083_00323_03975_8482.E1" ∧
    examine "ESA" emptyDirScene esaSearch = .error (.notRecognized "ESA") ∧
    examine "ESA" doubleZipScene esaSearch = .error .ambiguous :=
  ⟨(examine_unique_match "ESA" esaZipScene esaSearch).1 _ (by decide),
   (examine_unique_match "ESA" emptyDirScene esaSearch).2.1 (by decide),
   (examine_unique_match "ESA" doubleZipScene esaSearch).2.2 (by decide)⟩

/-! ## Claim C4: the archive materializer -/

/-- Claim C4 (code bug): the prefix-stripping branch behaves as specified —
unpacking a tar whose members are the directory scene123 with scene123/a.txt
and scene123/sub/b.txt into T yields T/a.txt, T/sub and T/sub/b.txt with no
T/scene123 — but the claimed verbatim-extraction fallback is missing for tar:
a tar whose common prefix is not itself a member name (members a.txt and
b.txt) extracts nothing at all, while the same content in a zip is extracted
verbatim; the locator is rebased to the target regardless. -/
theorem unpack_tar_missing_verbatim_fallback :
    tarUnpack [⟨"scene123", true⟩, ⟨"scene123/a.txt", false⟩, ⟨"scene123/sub", true⟩,
               ⟨"scene123/sub/b.txt", false⟩] "T" =
      [("T/a.txt", false), ("T/sub", true), ("T/sub/b.txt", false)] ∧
    tarUnpack [⟨"a.txt", false⟩, ⟨"b.txt", false⟩] "T" = [] ∧
    zipUnpack ["a.txt", "b.txt"] "T" = [("T/a.txt", false), ("T/b.txt", false)] ∧
    unpackTarModel [⟨"a.txt", false⟩, ⟨"b.txt", false⟩] "T" "/s.tar/a.txt" =
      { entries := [], scene := "T", file := "T/a.txt" } := by
  refine ⟨by decide, by decide, by decide, by decide⟩

/-! ## Claim C10: sensor identifier from the header extension -/

theorem takeWhile_append_all {p : Char → Bool} {l1 l2 : List Char}
    (h : ∀ c ∈ l1, p c) : (l1 ++ l2).takeWhile p = l1 ++ l2.takeWhile p := by
  induction l1 with
  | nil => simp
  | cons c cs ih =>
      simp only [List.cons_append, List.takeWhile_cons, h c (by simp)]
      rw [ih (fun x hx => h x (by simp [hx]))]
      simp

theorem pyBasename_of_no_slash {m : String} (hm : ∀ c ∈ m.data, c ≠ '/') :
    pyBasename m = m := by
  unfold pyBasename
  rw [List.takeWhile_eq_self_iff.mpr, List.reverse_reverse]
  · intro c hc
    simpa using hm c (by simpa using hc)

theorem pyBasename_join {d m : String} (hm : ∀ c ∈ m.data, c ≠ '/') :
    pyBasename (pyJoin d m) = m := by
  unfold pyBasename pyJoin
  have hdata : (d ++ "/" ++ m).data = d.data ++ '/' :: m.data := by
    simp [String.data_append]
  rw [hdata]
  rw [show (d.data ++ '/' :: m.data).reverse = m.data.reverse ++ '/' :: d.data.reverse by
    simp]
  rw [takeWhile_append_all (p := fun c => decide (c ≠ '/'))
    (fun c hc => by simpa using hm c (by simpa using hc))]
  simp [List.takeWhile_cons]

theorem sensorFromHeader_join {d m : String} (hm : ∀ c ∈ m.data, c ≠ '/') :
    sensorFromHeader (pyJoin d m) = sensorFromHeader m := by
  unfold sensorFromHeader splitextExt
  rw [pyBasename_join hm, pyBasename_of_no_slash hm]

/-- Claim C10: the sensor identifier set while reading the header is a
function of the header's splitext extension alone — .N1, .E1 and .E2 map to
ASAR, ERS1 and ERS2 — and for the other descriptor kinds (DAT_01.001,
product.xml, manifest.safe, under any directory) no sensor is set. -/
theorem sensor_from_extension :
    (∀ p q : String, splitextExt p = splitextExt q →
        sensorFromHeader p = sensorFromHeader q) ∧
    (∀ p, splitextExt p = ".N1" → sensorFromHeader p = some "ASAR") ∧
    (∀ p, splitextExt p = ".E1" → sensorFromHeader p = some "ERS1") ∧
    (∀ p, splitextExt p = ".E2" → sensorFromHeader p = some "ERS2") ∧
    (∀ d m, (∀ c ∈ m.data, c ≠ '/') →
        m = "DAT_01.001" ∨ m = "product.xml" ∨ m = "manifest.safe" →
        sensorFromHeader (pyJoin d m) = none) := by
  refine ⟨?_, ?_, ?_, ?_, ?_⟩
  · intro p q h
    unfold sensorFromHeader
    rw [h]
  · intro p h
    unfold sensorFromHeader
    rw [h]
    decide
  · intro p h
    unfold sensorFromHeader
    rw [h]
    decide
  · intro p h
    unfold sensorFromHeader
    rw [h]
    decide
  · intro d m hm hcase
    rw [sensorFromHeader_join hm]
    rcases hcase with h | h | h <;> rw [h] <;> decide

/-- Witness for C10: concrete headers of each descriptor kind. -/
theorem sensor_from_extension_witness :
    sensorFromHeader "/d/x/ASA_file.N1" = some "ASAR" ∧
    sensorFromHeader "/d/x/SAR_file.E1" = some "ERS1" ∧
    sensorFromHeader "/d/x/SAR_file.E2" = some "ERS2" ∧
    sensorFromHeader (pyJoin "/d/x" "DAT_01.001") = none ∧
    sensorFromHeader (pyJoin "/d/x" "product.xml") = none ∧
    sensorFromHeader (pyJoin "/d/x" "manifest.safe") = none :=
  ⟨sensor_from_extension.2.1 _ (by decide),
   sensor_from_extension.2.2.1 _ (by decide),
   sensor_from_extension.2.2.2.1 _ (by decide),
   sensor_from_extension.2.2.2.2 "/d/x" _ (by decide) (Or.inl rfl),
   sensor_from_extension.2.2.2.2 "/d/x" _ (by decide) (Or.inr (Or.inl rfl)),
   sensor_from_extension.2.2.2.2 "/d/x" _ (by decide) (Or.inr (Or.inr rfl))⟩

/-! ## Claim C1: the identify dispatcher -/

/-- Claim C1 (amended): `identify` tries the registered constructors in
subclass registration order (ESA, then SAFE); a construction failure raised
as IOError is swallowed and the next constructor is tried; the first
constructor that succeeds supplies the returned handler; if every constructor
fails with IOError the dispatcher fails with the Unsupported IOError; but a
construction failure that is not an IOError (such as an AttributeError from a
missing metadata field) propagates immediately instead of being swallowed. -/
theorem identify_priority_dispatch (env : GdalEnv) (scene : Scene) (mode : String) :
    (∀ h, ESA.construct env scene mode = .ok h →
        identify env scene mode = .ok (.esa h)) ∧
    (∀ e h2, ESA.construct env scene mode = .error e → e.isIOError = true →
        SAFE.construct env scene mode = .ok h2 →
        identify env scene mode = .ok (.safe h2)) ∧
    (∀ e e2, ESA.construct env scene mode = .error e → e.isIOError = true →
        SAFE.construct env scene mode = .error e2 → e2.isIOError = true →
        identify env scene mode = .error .unsupported) ∧
    (∀ e, ESA.construct env scene mode = .error e → e.isIOError = false →
        identify env scene mode = .error e) ∧
    (∀ e e2, ESA.construct env scene mode = .error e → e.isIOError = true →
        SAFE.construct env scene mode = .error e2 → e2.isIOError = false →
        identify env scene mode = .error e2) := by
  refine ⟨?_, ?_, ?_, ?_, ?_⟩ <;> intros <;> simp_all [identify]

/-- Counterexample for C1 as frozen: not every handler-construction failure
is swallowed.  On a zip scene whose single grammar-matching member has a .zip
suffix and whose header descriptor is DAT_01.001, the ESA constructor passes
examine but never sets a sensor, so reading `self.sensor` raises
AttributeError — which `identify` does not catch: it propagates instead of
trying SAFE or raising Unsupported. -/
theorem identify_attribute_error_escapes :
    ESA.construct envEmpty datHeaderScene "full" = .error (.attributeError "sensor") ∧
    identify envEmpty datHeaderScene "full" = .error (.attributeError "sensor") :=
  ⟨by decide, by decide⟩

/-- Witness for C1: on a scene no handler recognizes, both constructors fail
with IOError and identify reports the Unsupported error. -/
theorem identify_priority_dispatch_witness :
    identify envEmpty unknownScene "full" = .error .unsupported :=
  (identify_priority_dispatch envEmpty unknownScene "full").2.2.1
    (.notRecognized "ESA") (.notRecognized "SAFE")
    (by decide) (by decide) (by decide) (by decide)

/-! ## Claim C3: explicitly excluded product classes -/

/-- Claim C3 (amended): level-0 ESA products, SAFE ocean products and SAFE
annotation-only products are each rejected with an UnsupportedProduct
IOError.  The SAFE rejections happen in convert2gamma, after its
not-yet-unpacked check, and surface to that caller; the ESA level-0 rejection
happens during construction and is raised as the same IOError kind the
dispatcher swallows, so under `identify` it falls through to the remaining
handlers and is reported as Unsupported rather than surfaced. -/
theorem unsupported_product_rejections :
    (∀ env scene mode f caps, examine "ESA" scene esaSearch = .ok f →
        esaMatch (pyBasename f) = some caps →
        containsSub caps.productId "IM__0" = true →
        ESA.construct env scene mode =
          .error (.unsupportedProduct "product level 0 not supported (yet)")) ∧
    (∀ h : SafeHandler, h.scene.compression = none → h.product = "OCN" →
        SAFE.convert2gammaGuards h =
          .error (.unsupportedProduct "Sentinel-1 OCN products are not supported")) ∧
    (∀ h : SafeHandler, h.scene.compression = none → h.product ≠ "OCN" →
        h.category = "A" →
        SAFE.convert2gammaGuards h =
          .error (.unsupportedProduct "Sentinel-1 annotation-only products are not supported")) ∧
    (∀ env scene mode m e2,
        ESA.construct env scene mode = .error (.unsupportedProduct m) →
        SAFE.construct env scene mode = .error e2 → e2.isIOError = true →
        identify env scene mode = .error .unsupported) := by
  refine ⟨?_, ?_, ?_, ?_⟩
  · intro env scene mode f caps hex hm hsub
    simp [ESA.construct, hex, hm, hsub, throw, throwThe, MonadExceptOf.throw,
      bind, Except.bind]
  · intro h hcomp hocn
    simp [SAFE.convert2gammaGuards, hcomp, hocn, throw, throwThe, MonadExceptOf.throw,
      bind, Except.bind, pure, Except.pure]
  · intro h hcomp hocn hann
    simp [SAFE.convert2gammaGuards, hcomp, hocn, hann, throw, throwThe,
      MonadExceptOf.throw, bind, Except.bind, pure, Except.pure]
  · intro env scene mode m e2 h1 h2 hio
    simp only [identify, h1, h2,
      show (PyError.unsupportedProduct m).isIOError = true from rfl, if_true]
    rw [if_pos hio]

/-- Counterexample for C3 as frozen: the ESA level-0 rejection is not
surfaced through the dispatcher.  On a concrete level-0 scene the ESA
constructor fails with the UnsupportedProduct IOError, and `identify`
swallows it, tries SAFE, and reports the generic Unsupported error. -/
theorem esa_level0_swallowed_by_identify :
    ESA.construct envEmpty level0Scene "full" =
      .error (.unsupportedProduct "product level 0 not supported (yet)") ∧
    identify envEmpty level0Scene "full" = .error .unsupported :=
  ⟨by decide, by decide⟩

/-- Witness for C3: the three rejections at concrete inputs, and the
dispatcher's conversion of the level-0 failure into Unsupported. -/
theorem unsupported_product_rejections_witness :
    ESA.construct envEmpty level0Scene "meta" =
      .error (.unsupportedProduct "product level 0 not supported (yet)") ∧
    SAFE.convert2gammaGuards ocnHandler =
      .error (.unsupportedProduct "Sentinel-1 OCN products are not supported") ∧
    SAFE.convert2gammaGuards annHandler =
      .error (.unsupportedProduct "Sentinel-1 annotation-only products are not supported") ∧
    identify envEmpty level0Scene "meta" = .error .unsupported :=
  ⟨unsupported_product_rejections.1 envEmpty level0Scene "meta"
      "/d/ASA_IM__0CNPDE20040102_102928_000000162023_00051_09624_0240.N1"
      { productId := "ASA_IM__0C", satelliteId := "N1", extension := "" }
      (by decide) (by decide) (by decide),
   unsupported_product_rejections.2.1 ocnHandler (by decide) (by decide),
   unsupported_product_rejections.2.2.1 annHandler (by decide) (by decide) (by decide),
   unsupported_product_rejections.2.2.2 envEmpty level0Scene "meta"
      "product level 0 not supported (yet)" (.notRecognized "SAFE")
      (by decide) (by decide) (by decide)⟩

/-! ## Claim C7: orbit direction from the time-of-day token -/

/-- Claim C7: every successfully constructed SAFE handler derives its orbit
direction through the line-454 expression applied to its start timestamp, and
on a well-formed start token (eight digits, T, six digits) that expression
depends only on the six-digit time-of-day token: Descending when its value is
below 120000, Ascending otherwise. -/
theorem safe_orbit_from_time_of_day :
    (∀ (env : GdalEnv) (scene : Scene) (mode : String) (h : SafeHandler),
        SAFE.construct env scene mode = .ok h →
        safeOrbitExpr h.start = .ok h.orbit) ∧
    (∀ c1 c2 c3 c4 c5 c6 c7 c8 t1 t2 t3 t4 t5 t6 : Char,
        ([c1, c2, c3, c4, c5, c6, c7, c8].all Char.isDigit) = true →
        ([t1, t2, t3, t4, t5, t6].all Char.isDigit) = true →
        safeOrbitExpr
            (String.mk [c1, c2, c3, c4, c5, c6, c7, c8, 'T', t1, t2, t3, t4, t5, t6]) =
          .ok (if digitsVal [t1, t2, t3, t4, t5, t6] < 120000 then "D" else "A")) := by
  constructor
  · intro env scene mode h hc
    unfold SAFE.construct at hc
    simp only [bind, Except.bind, pure, Except.pure] at hc
    cases hex : examine "SAFE" scene (fun s => (safeMatch s).isSome) with
    | error e => simp [hex] at hc
    | ok file =>
      simp only [hex] at hc
      cases hm : safeMatch (pyBasename file) with
      | none => simp [hm] at hc
      | some caps =>
        simp only [hm] at hc
        cases ho : safeOrbitExpr caps.start with
        | error e => simp [ho] at hc
        | ok orb =>
          simp only [ho] at hc
          by_cases hmd : mode = "full"
          · simp only [hmd, if_true] at hc
            cases hg : gdalinfo env scene with
            | error e => simp [hg] at hc
            | ok info =>
              simp only [hg] at hc
              cases hpx : getAttrE info.attrs "PIXEL_SPACING" with
              | error e => simp [hpx] at hc
              | ok px =>
                simp only [hpx] at hc
                cases hln : getAttrE info.attrs "LINE_SPACING" with
                | error e => simp [hln] at hc
                | ok ln =>
                  simp only [hln] at hc
                  injection hc with hh
                  subst hh
                  exact ho
          · simp only [hmd, if_false] at hc
            injection hc with hh
            subst hh
            exact ho
  · intro c1 c2 c3 c4 c5 c6 c7 c8 t1 t2 t3 t4 t5 t6 hd ht
    simp only [List.all_cons, List.all_nil, Bool.and_eq_true, Bool.and_true] at hd ht
    obtain ⟨h1, h2, h3, h4, h5, h6, h7, h8⟩ := hd
    obtain ⟨g1, g2, g3, g4, g5, g6⟩ := ht
    unfold safeOrbitExpr
    simp only [findall6, List.all_cons, List.all_nil, h1, h2, h3, h4, h5, h6, h7, h8,
      g1, g2, g3, g4, g5, g6, Bool.and_true, Bool.true_and, Bool.and_self,
      show ('T'.isDigit = false) from by decide, Bool.and_false, Bool.false_and,
      if_true, if_false]
    rfl

/-- Witness for C7: the spec's two orbit-derivation examples. -/
theorem safe_orbit_from_time_of_day_witness :
    safeOrbitExpr "20150408T053103" = .ok "D" ∧
    safeOrbitExpr "20150408T150000" = .ok "A" := by
  constructor
  · have h := safe_orbit_from_time_of_day.2 '2' '0' '1' '5' '0' '4' '0' '8'
      '0' '5' '3' '1' '0' '3' (by decide) (by decide)
    have e2 : (if digitsVal ['0', '5', '3', '1', '0', '3'] < 120000 then "D" else "A") = "D" := by
      decide
    rw [e2] at h
    exact h
  · have h := safe_orbit_from_time_of_day.2 '2' '0' '1' '5' '0' '4' '0' '8'
      '1' '5' '0' '0' '0' '0' (by decide) (by decide)
    have e2 : (if digitsVal ['1', '5', '0', '0', '0', '0'] < 120000 then "D" else "A") = "A" := by
      decide
    rw [e2] at h
    exact h

/-! ## Claim C9: purity and determinism of outnameBase -/

theorem esaPidParse_roundtrip {l : List Char} {pid mode : String} {rest : List Char}
    (h : esaPidParse l = some (pid, mode, rest)) : esaPidMatch pid = some mode := by
  unfold esaPidParse at h
  split at h
  case h_2 => exact absurd h (by simp)
  case h_1 s1 s2 s3 m1 m2 m3 lv1 lv2 rest2 =>
    split at h
    case isFalse => exact absurd h (by simp)
    case isTrue hcond =>
      simp only [Option.some.injEq, Prod.mk.injEq] at h
      obtain ⟨hpid, hmode, hrest⟩ := h
      subst hpid hmode
      unfold esaPidMatch esaPidParse
      simp [hcond]

theorem esaParse_pid {l : List Char} {caps : EsaCaps} (h : esaParse l = some caps) :
    ∃ mode rest, esaPidParse l = some (caps.productId, mode, rest) := by
  unfold esaParse at h
  cases hp : esaPidParse l with
  | none => rw [hp] at h; exact absurd h (by simp)
  | some t =>
    obtain ⟨pid, mode, rest⟩ := t
    rw [hp] at h
    have hpid : caps.productId = pid := by
      repeat split at h
      all_goals first
        | exact Option.noConfusion h
        | (injection h with h2; subst h2; simp_all)
    refine ⟨mode, rest, ?_⟩
    rw [hpid]

/-- Claim C9 (amended): `outnameBase` performs no input/output in either
handler and is a deterministic function of the instance state.  The SAFE
version always returns the canonical join of its stored parsed fields.  The
ESA version re-derives its fields by re-matching the scene basename against
the naming grammar: when that basename still matches (and the stored start
field is a string), it returns the canonical join, and when it does not
match, the call deterministically fails (AttributeError on the failed match
object) instead of returning a string. -/
theorem outname_base_determinism :
    (∀ h : EsaHandler, esaMatch (pyBasename h.scene.path) = none →
        h.outname_base = none) ∧
    (∀ (h : EsaHandler) (caps : EsaCaps) (sens st : String),
        esaMatch (pyBasename h.scene.path) = some caps →
        valuePad4 h.sensor = some sens → h.start = .str st →
        ∀ mode, esaPidMatch caps.productId = some mode →
          h.outname_base =
            some (String.intercalate "_" [sens, padTo4 mode, h.orbit, st])) ∧
    (∀ (h : EsaHandler) (caps : EsaCaps),
        esaMatch (pyBasename h.scene.path) = some caps →
        (esaPidMatch caps.productId).isSome = true) ∧
    (∀ h : SafeHandler,
        h.outname_base =
          String.intercalate "_" [padTo4 h.sensor, padTo4 h.beam, h.orbit, h.start]) := by
  refine ⟨?_, ?_, ?_, ?_⟩
  · intro h hm
    unfold EsaHandler.outname_base
    simp only [hm]
  · intro h caps sens st hm hs hst mode hmode
    unfold EsaHandler.outname_base
    simp only [hm, hmode, hs, hst]
  · intro h caps hm
    obtain ⟨mode, rest, hp⟩ := esaParse_pid hm
    rw [esaPidParse_roundtrip hp]
    rfl
  · intro h
    rfl

/-- Counterexample for C9 as frozen: a successfully constructed ESA instance
on which `outname_base` returns no string at all.  The zip container is named
foo.zip while its member follows the grammar; construction succeeds, but
`outname_base` re-matches the scene basename foo.zip, the match is None, and
`.group` raises AttributeError. -/
theorem esa_outname_fails_on_renamed_scene :
    (ESA.construct ersEnv renamedZipScene "full").toOption.map EsaHandler.outname_base =
      some none := by decide

/-- Witness for C9: the amended characterization at concrete handler states. -/
theorem outname_base_determinism_witness :
    witEsaHandler.outname_base = some "ERS1_IMP__D_19920419T110159" ∧
    witEsaBad.outname_base = none ∧
    SafeHandler.outname_base ocnHandler = "S1A__WV___D_20150408T053103" := by
  refine ⟨?_, ?_, ?_⟩
  · have h := outname_base_determinism.2.1 witEsaHandler
      { productId := "SAR_IMP_1P", satelliteId := "E1", extension := ".zip" }
      "ERS1" "19920419T110159" (by decide) (by decide) rfl "IMP" (by decide)
    rw [h]
    decide
  · exact outname_base_determinism.1 witEsaBad (by decide)
  · rw [outname_base_determinism.2.2.2 ocnHandler]
    decide

/-! ## Claim C8: tile enumeration -/

theorem digitChar_isDigit {m : Nat} (hm : m < 10) : (Char.ofNat (48 + m)).isDigit = true := by
  interval_cases m <;> decide

theorem natCharsAux_digits (fuel : Nat) : ∀ n, (natCharsAux fuel n).all Char.isDigit = true := by
  induction fuel with
  | zero => intro n; rfl
  | succ f ih =>
      intro n
      by_cases hn : n < 10
      · simp [natCharsAux, hn, digitChar_isDigit hn]
      · simp [natCharsAux, hn, List.all_append, ih (n / 10),
          digitChar_isDigit (Nat.mod_lt n (by omega))]

theorem natChars_digits (n : Nat) : (natChars n).all Char.isDigit = true :=
  natCharsAux_digits (n + 1) n

theorem natChars_ne_nil (n : Nat) : natChars n ≠ [] := by
  unfold natChars natCharsAux
  split
  · simp
  · simp

theorem digit_ne_dash {c : Char} (h : c.isDigit = true) : ¬(c = '-') := by
  intro hc
  subst hc
  exact absurd h (by decide)

theorem digit_ne_plus {c : Char} (h : c.isDigit = true) : ¬(c = '+') := by
  intro hc
  subst hc
  exact absurd h (by decide)

theorem dropWhileChar_eq_self {ch : Char} {l : List Char} (h : ∀ c ∈ l, ¬(c = ch)) :
    l.dropWhile (· = ch) = l := by
  cases l with
  | nil => rfl
  | cons c cs =>
      rw [List.dropWhile_cons]
      simp [h c (by simp)]

theorem stripChar_eq_self {ch : Char} {l : List Char} (h : ∀ c ∈ l, ¬(c = ch)) :
    pyStripChar ch (String.mk l) = String.mk l := by
  unfold pyStripChar
  rw [show (String.mk l).data = l from rfl]
  rw [dropWhileChar_eq_self h,
    dropWhileChar_eq_self (fun c hc => h c (by simpa using hc)), List.reverse_reverse]

theorem replaceAux_no_occ {ch : Char} {rep : List Char} :
    ∀ (fuel : Nat) (l : List Char), (∀ c ∈ l, ¬(c = ch)) →
      replaceAux [ch] rep fuel l = l := by
  intro fuel
  induction fuel with
  | zero => intro l _; cases l <;> rfl
  | succ f ih =>
      intro l hl
      cases l with
      | nil => rfl
      | cons c cs =>
          unfold replaceAux
          rw [if_neg]
          · rw [ih cs (fun x hx => hl x (by simp [hx]))]
          · simp [List.isPrefixOf]
            intro hc
            exact absurd hc.symm (hl c (by simp))

theorem mem_leftpad {c z : Char} {w : Nat} {l : List Char} (h : c ∈ leftpad z w l) :
    c = z ∨ c ∈ l := by
  unfold leftpad at h
  rcases List.mem_append.mp h with h2 | h2
  · exact Or.inl (List.eq_of_mem_replicate h2)
  · exact Or.inr h2

theorem natChars_no_dash {n : Nat} : ∀ c ∈ natChars n, ¬(c = '-') := fun c hc =>
  digit_ne_dash (by
    have := natChars_digits n
    rw [List.all_eq_true] at this
    exact this c hc)

theorem leftpad_zero_no_dash {w : Nat} {l : List Char} (hl : ∀ c ∈ l, ¬(c = '-')) :
    ∀ c ∈ leftpad '0' w l, ¬(c = '-') := by
  intro c hc
  rcases mem_leftpad hc with h | h
  · subst h; decide
  · exact hl c h

theorem contains_eq_false_of_not_mem {l : List Char} {c : Char}
    (h : ∀ x ∈ l, ¬(x = c)) : l.contains c = false := by
  induction l with
  | nil => rfl
  | cons a as ih =>
      have ha : ¬(a = c) := h a (by simp)
      simp only [List.contains_cons, Bool.or_eq_false_iff]
      constructor
      · simpa [beq_iff_eq] using fun hc => ha hc.symm
      · exact ih (fun x hx => h x (by simp [hx]))

theorem strip_dash_mk_digits {nc : List Char} (hd : ∀ c ∈ nc, ¬(c = '-')) :
    pyStripChar '-' (String.mk ('-' :: nc)) = String.mk nc := by
  unfold pyStripChar
  rw [show (String.mk ('-' :: nc)).data = '-' :: nc from rfl]
  rw [List.dropWhile_cons]
  rw [if_pos (by decide)]
  rw [dropWhileChar_eq_self hd,
    dropWhileChar_eq_self (fun c hc => hd c (by simpa using hc)), List.reverse_reverse]

/-- The zfill-and-replace latitude pipeline of `getHGT` agrees with the spec's
hemisphere formatting for every integer degree value. -/
theorem latFmtCode_eq (x : Int) : latFmtCode x = hemiLat x := by
  unfold latFmtCode hemiLat
  dsimp only
  by_cases hx : x < 0
  · have hstr : intStr x = String.mk ('-' :: natChars x.natAbs) := by
      unfold intStr
      rw [if_pos hx]
    rw [hstr, strip_dash_mk_digits natChars_no_dash]
    rw [show (String.mk ('-' :: natChars x.natAbs)).length =
      (natChars x.natAbs).length + 1 from rfl]
    rw [show (String.mk (natChars x.natAbs)).length = (natChars x.natAbs).length from rfl]
    rw [show 2 + ((natChars x.natAbs).length + 1) - (natChars x.natAbs).length = 3 from by
      omega]
    rw [show pyZfill (String.mk ('-' :: natChars x.natAbs)) 3 =
        String.mk ('-' :: leftpad '0' 2 (natChars x.natAbs)) from by
      unfold pyZfill
      simp]
    rw [show (String.mk ('-' :: leftpad '0' 2 (natChars x.natAbs))).data.contains '-' =
        true from by
      simp [List.contains_cons]]
    rw [if_pos rfl, if_pos hx]
    unfold pyReplace
    rw [show (String.mk ('-' :: leftpad '0' 2 (natChars x.natAbs))).data =
      '-' :: leftpad '0' 2 (natChars x.natAbs) from rfl]
    rw [show ('-' :: leftpad '0' 2 (natChars x.natAbs)).length =
      (leftpad '0' 2 (natChars x.natAbs)).length + 1 from rfl]
    unfold replaceAux
    rw [if_pos (by simp [List.isPrefixOf])]
    rw [show (('-' :: leftpad '0' 2 (natChars x.natAbs)).drop ("-".data).length) =
      leftpad '0' 2 (natChars x.natAbs) from rfl]
    rw [replaceAux_no_occ _ _ (leftpad_zero_no_dash natChars_no_dash)]
    rfl
  · have hstr : intStr x = String.mk (natChars x.natAbs) := by
      unfold intStr
      rw [if_neg hx]
    rw [hstr, stripChar_eq_self natChars_no_dash]
    rw [show 2 + (String.mk (natChars x.natAbs)).length -
      (String.mk (natChars x.natAbs)).length = 2 from by omega]
    have hzfill : pyZfill (String.mk (natChars x.natAbs)) 2 =
        String.mk (leftpad '0' 2 (natChars x.natAbs)) := by
      unfold pyZfill
      rcases hnc : natChars x.natAbs with _ | ⟨c, cs⟩
      · exact absurd hnc (natChars_ne_nil _)
      · have hc : c.isDigit = true := by
          have := natChars_digits x.natAbs
          rw [hnc, List.all_cons, Bool.and_eq_true] at this
          exact this.1
        rw [show (String.mk (c :: cs)).data = c :: cs from rfl]
        simp [digit_ne_dash hc, digit_ne_plus hc]
    rw [hzfill]
    rw [show (String.mk (leftpad '0' 2 (natChars x.natAbs))).data.contains '-' = false from
      contains_eq_false_of_not_mem (leftpad_zero_no_dash natChars_no_dash)]
    rw [if_neg (by simp), if_neg hx]

/-- The longitude pipeline agrees with the spec's hemisphere formatting. -/
theorem lonFmtCode_eq (x : Int) : lonFmtCode x = hemiLon x := by
  unfold lonFmtCode hemiLon
  dsimp only
  by_cases hx : x < 0
  · have hstr : intStr x = String.mk ('-' :: natChars x.natAbs) := by
      unfold intStr
      rw [if_pos hx]
    rw [hstr, strip_dash_mk_digits natChars_no_dash]
    rw [show (String.mk ('-' :: natChars x.natAbs)).length =
      (natChars x.natAbs).length + 1 from rfl]
    rw [show (String.mk (natChars x.natAbs)).length = (natChars x.natAbs).length from rfl]
    rw [show 3 + ((natChars x.natAbs).length + 1) - (natChars x.natAbs).length = 4 from by
      omega]
    rw [show pyZfill (String.mk ('-' :: natChars x.natAbs)) 4 =
        String.mk ('-' :: leftpad '0' 3 (natChars x.natAbs)) from by
      unfold pyZfill
      simp]
    rw [show (String.mk ('-' :: leftpad '0' 3 (natChars x.natAbs))).data.contains '-' =
        true from by
      simp [List.contains_cons]]
    rw [if_pos rfl, if_pos hx]
    unfold pyReplace
    rw [show (String.mk ('-' :: leftpad '0' 3 (natChars x.natAbs))).data =
      '-' :: leftpad '0' 3 (natChars x.natAbs) from rfl]
    rw [show ('-' :: leftpad '0' 3 (natChars x.natAbs)).length =
      (leftpad '0' 3 (natChars x.natAbs)).length + 1 from rfl]
    unfold replaceAux
    rw [if_pos (by simp [List.isPrefixOf])]
    rw [show (('-' :: leftpad '0' 3 (natChars x.natAbs)).drop ("-".data).length) =
      leftpad '0' 3 (natChars x.natAbs) from rfl]
    rw [replaceAux_no_occ _ _ (leftpad_zero_no_dash natChars_no_dash)]
    rfl
  · have hstr : intStr x = String.mk (natChars x.natAbs) := by
      unfold intStr
      rw [if_neg hx]
    rw [hstr, stripChar_eq_self natChars_no_dash]
    rw [show 3 + (String.mk (natChars x.natAbs)).length -
      (String.mk (natChars x.natAbs)).length = 3 from by omega]
    have hzfill : pyZfill (String.mk (natChars x.natAbs)) 3 =
        String.mk (leftpad '0' 3 (natChars x.natAbs)) := by
      unfold pyZfill
      rcases hnc : natChars x.natAbs with _ | ⟨c, cs⟩
      · exact absurd hnc (natChars_ne_nil _)
      · have hc : c.isDigit = true := by
          have := natChars_digits x.natAbs
          rw [hnc, List.all_cons, Bool.and_eq_true] at this
          exact this.1
        rw [show (String.mk (c :: cs)).data = c :: cs from rfl]
        simp [digit_ne_dash hc, digit_ne_plus hc]
    rw [hzfill]
    rw [show (String.mk (leftpad '0' 3 (natChars x.natAbs))).data.contains '-' = false from
      contains_eq_false_of_not_mem (leftpad_zero_no_dash natChars_no_dash)]
    rw [if_neg (by simp), if_neg hx]

theorem flatMap_map_left {α β γ : Type} (f : α → β) (g : β → List γ) (l : List α) :
    (l.map f).flatMap g = l.flatMap (fun a => g (f a)) := by
  induction l with
  | nil => rfl
  | cons a as ih => simp [ih]

/-- Claim C8: `getHGT` enumerates the integer latitudes from the floor of
ymin to the floor of ymax inclusive and the longitudes from the floor of xmin
to the floor of xmax inclusive, formats them with the hemisphere-letter
zero-padded scheme, and returns the full cross product of tile names; the
spec's example footprint (10.2, 11.8, -1.3, 0.4) is included in the
`exampleCorners` conjuncts. -/
theorem getHGT_tile_enumeration :
    (∀ c : Corners, c.ymin ≤ c.ymax → c.xmin ≤ c.xmax →
        getHGT c =
          (intRange (Rat.floor c.ymin) (Rat.floor c.ymax)).flatMap
            (fun la => (intRange (Rat.floor c.xmin) (Rat.floor c.xmax)).map
              (fun lo => hemiLat la ++ hemiLon lo ++ ".hgt"))) ∧
    (exampleCorners.xmin = 10.2 ∧ exampleCorners.xmax = 11.8 ∧
      exampleCorners.ymin = -1.3 ∧ exampleCorners.ymax = 0.4) ∧
    getHGT exampleCorners =
      ["S02E010.hgt", "S02E011.hgt", "S01E010.hgt", "S01E011.hgt",
       "N00E010.hgt", "N00E011.hgt"] := by
  refine ⟨?_, ⟨?_, ?_, ?_, ?_⟩, by decide⟩
  · intro c _ _
    unfold getHGT
    rw [show latFmtCode = hemiLat from funext latFmtCode_eq,
      show lonFmtCode = hemiLon from funext lonFmtCode_eq]
    rw [flatMap_map_left]
    simp only [List.map_map]
    rfl
  · show (Rat.mk' 51 5 (by decide) (by decide) : ℚ) = 10.2
    rw [Rat.mk'_eq_divInt, Rat.divInt_eq_div]
    norm_num
  · show (Rat.mk' 59 5 (by decide) (by decide) : ℚ) = 11.8
    rw [Rat.mk'_eq_divInt, Rat.divInt_eq_div]
    norm_num
  · show (Rat.mk' (-13) 10 (by decide) (by decide) : ℚ) = -1.3
    rw [Rat.mk'_eq_divInt, Rat.divInt_eq_div]
    norm_num
  · show (Rat.mk' 2 5 (by decide) (by decide) : ℚ) = 0.4
    rw [Rat.mk'_eq_divInt, Rat.divInt_eq_div]
    norm_num

/-- Witness for C8: the general enumeration applied to the spec's example
footprint. -/
theorem getHGT_tile_enumeration_witness :
    getHGT exampleCorners =
      (intRange (Rat.floor exampleCorners.ymin) (Rat.floor exampleCorners.ymax)).flatMap
        (fun la =>
          (intRange (Rat.floor exampleCorners.xmin) (Rat.floor exampleCorners.xmax)).map
            (fun lo => hemiLat la ++ hemiLon lo ++ ".hgt")) :=
  getHGT_tile_enumeration.1 exampleCorners (by decide) (by decide)

/-! ## Claim C5: timestamp normalization

The key fact is that a canonical output string (digits plus a literal T)
cannot be re-parsed by any of the later formats, so the sequential rewriting
loop of the source has first-successful-parse-wins semantics. -/

theorem num4_digits {k : Nat → List Char → Option Tm} {t : Tm}
    (hk : ∀ v r, k v r = some t → r.all Char.isDigit = true) :
    ∀ {l}, num4 k l = some t → l.all Char.isDigit = true := by
  intro l h
  match l with
  | [] | [_] | [_, _] | [_, _, _] => exact absurd h (by simp [num4])
  | c1 :: c2 :: c3 :: c4 :: rest =>
      unfold num4 at h
      dsimp only at h
      split at h
      case isTrue hcond =>
        have hr := hk _ _ h
        simp only [List.all_cons, Bool.and_eq_true] at hcond ⊢
        exact ⟨hcond.1, hcond.2.1, hcond.2.2.1, hcond.2.2.2.1, hr⟩
      case isFalse => exact absurd h (by simp)

theorem num2or1_digits {lo hi : Nat} {k : Nat → List Char → Option Tm} {t : Tm}
    (hk : ∀ v r, k v r = some t → r.all Char.isDigit = true) :
    ∀ {l}, num2or1 lo hi k l = some t → l.all Char.isDigit = true := by
  intro l h
  match l with
  | [] => exact absurd h (by simp [num2or1])
  | [c1] =>
      unfold num2or1 at h
      dsimp only at h
      split at h
      case isTrue hcond => simp [hcond.1]
      case isFalse => exact absurd h (by simp)
  | c1 :: c2 :: rest =>
      unfold num2or1 at h
      dsimp only at h
      cases h2 : (if c1.isDigit = true ∧ c2.isDigit = true ∧
          lo ≤ digitsVal [c1, c2] ∧ digitsVal [c1, c2] ≤ hi then
          k (digitsVal [c1, c2]) rest else none) with
      | some v =>
          rw [h2] at h
          simp only [Option.orElse] at h
          replace h : v = t := by simpa using h
          subst h
          split at h2
          case isTrue hcond =>
            have hr := hk _ _ h2
            simp only [List.all_cons, Bool.and_eq_true]
            exact ⟨hcond.1, hcond.2.1, hr⟩
          case isFalse => exact absurd h2 (by simp)
      | none =>
          rw [h2] at h
          simp only [Option.orElse] at h
          split at h
          case isTrue hcond =>
            have hr := hk _ _ h
            simp only [List.all_cons, Bool.and_eq_true] at hr ⊢
            exact ⟨hcond.1, hr⟩
          case isFalse => exact absurd h (by simp)

theorem tryFrac_digits {k : List Char → Option Tm} {t : Tm}
    (hk : ∀ r, k r = some t → r.all Char.isDigit = true) :
    ∀ (i : Nat) {l}, tryFrac i k l = some t → l.all Char.isDigit = true := by
  intro i
  induction i with
  | zero => intro l h; exact absurd h (by simp [tryFrac])
  | succ j ih =>
      intro l h
      unfold tryFrac at h
      cases h2 : (if (l.take (j + 1)).length = j + 1 ∧
          (l.take (j + 1)).all Char.isDigit = true then k (l.drop (j + 1)) else none) with
      | some v =>
          rw [h2] at h
          simp only [Option.orElse] at h
          replace h : v = t := by simpa using h
          subst h
          split at h2
          case isTrue hcond =>
            have hr := hk _ h2
            rw [← List.take_append_drop (j + 1) l, List.all_append]
            simp [hcond.2, hr]
          case isFalse => exact absurd h2 (by simp)
      | none =>
          rw [h2] at h
          simp only [Option.orElse] at h
          exact ih h

theorem endFmt_digits {t tm : Tm} :
    ∀ r : List Char, (if r = [] then some tm else none) = some t →
      r.all Char.isDigit = true := by
  intro r h
  split at h
  case isTrue he => subst he; rfl
  case isFalse => exact absurd h (by simp)

/-- A string accepted by the compact numeric format consists of digits only. -/
theorem fmt2_digits {l : List Char} {t : Tm} (h : fmt2 l = some t) :
    l.all Char.isDigit = true := by
  unfold fmt2 at h
  exact num4_digits (fun y r1 h1 =>
    num2or1_digits (fun mo r2 h2 =>
      num2or1_digits (fun d r3 h3 =>
        num2or1_digits (fun hh r4 h4 =>
          num2or1_digits (fun mi r5 h5 =>
            num2or1_digits (fun ss r6 h6 =>
              tryFrac_digits (fun r7 h7 => endFmt_digits r7 h7) 6 h6) h5) h4) h3) h2) h1) h

theorem litC_dash {k : List Char → Option Tm} {t : Tm} :
    ∀ {l}, litC '-' k l = some t → '-' ∈ l := by
  intro l h
  match l with
  | [] => exact absurd h (by simp [litC])
  | x :: rest =>
      unfold litC at h
      dsimp only at h
      split at h
      case isTrue he => subst he; simp
      case isFalse => exact absurd h (by simp)

theorem num4_dash {k : Nat → List Char → Option Tm} {t : Tm}
    (hk : ∀ v r, k v r = some t → '-' ∈ r) :
    ∀ {l}, num4 k l = some t → '-' ∈ l := by
  intro l h
  match l with
  | [] | [_] | [_, _] | [_, _, _] => exact absurd h (by simp [num4])
  | c1 :: c2 :: c3 :: c4 :: rest =>
      unfold num4 at h
      dsimp only at h
      split at h
      case isTrue hcond => simp [hk _ _ h]
      case isFalse => exact absurd h (by simp)

/-- A string accepted by either ISO format contains a dash. -/
theorem fmt3_dash {l : List Char} {t : Tm} (h : fmt3 l = some t) : '-' ∈ l := by
  unfold fmt3 at h
  exact num4_dash (fun v r hr => litC_dash hr) h

theorem fmt4_dash {l : List Char} {t : Tm} (h : fmt4 l = some t) : '-' ∈ l := by
  unfold fmt4 at h
  exact num4_dash (fun v r hr => litC_dash hr) h

theorem pad2_digits {n : Nat} : ∀ c ∈ pad2 n, c.isDigit = true := by
  intro c hc
  rcases mem_leftpad hc with h | h
  · subst h; decide
  · have := natChars_digits n
    rw [List.all_eq_true] at this
    exact this c h

/-- Every character of a canonical timestamp is a digit or the letter T. -/
theorem canonTs_chars {t : Tm} : ∀ c ∈ (canonTs t).data, c.isDigit = true ∨ c = 'T' := by
  intro c hc
  have hsplit : c ∈ natChars t.year ∨ c ∈ pad2 t.month ∨ c ∈ pad2 t.day ∨ c = 'T' ∨
      c ∈ pad2 t.hour ∨ c ∈ pad2 t.minute ∨ c ∈ pad2 t.sec := by
    have hdata : (canonTs t).data = natChars t.year ++ pad2 t.month ++ pad2 t.day ++ 'T' ::
        (pad2 t.hour ++ pad2 t.minute ++ pad2 t.sec) := rfl
    rw [hdata] at hc
    simp only [List.mem_append, List.mem_cons] at hc
    tauto
  rcases hsplit with h | h | h | h | h | h | h
  · exact Or.inl ((List.all_eq_true.mp (natChars_digits t.year)) c h)
  · exact Or.inl (pad2_digits c h)
  · exact Or.inl (pad2_digits c h)
  · exact Or.inr h
  · exact Or.inl (pad2_digits c h)
  · exact Or.inl (pad2_digits c h)
  · exact Or.inl (pad2_digits c h)

theorem canonTs_hasT {t : Tm} : 'T' ∈ (canonTs t).data := by
  have hdata : (canonTs t).data = natChars t.year ++ pad2 t.month ++ pad2 t.day ++ 'T' ::
      (pad2 t.hour ++ pad2 t.minute ++ pad2 t.sec) := rfl
  rw [hdata]
  simp

/-- The compact numeric format never re-parses a canonical output. -/
theorem fmt2_canon_none (t : Tm) : fmt2 (canonTs t).data = none := by
  cases h : fmt2 (canonTs t).data with
  | none => rfl
  | some t2 =>
      have hall := fmt2_digits h
      rw [List.all_eq_true] at hall
      have := hall 'T' canonTs_hasT
      exact absurd this (by decide)

/-- The first ISO format never re-parses a canonical output. -/
theorem fmt3_canon_none (t : Tm) : fmt3 (canonTs t).data = none := by
  cases h : fmt3 (canonTs t).data with
  | none => rfl
  | some t2 =>
      rcases canonTs_chars '-' (fmt3_dash h) with hd | hd
      · exact absurd hd (by decide)
      · exact absurd hd (by decide)

/-- The zoned ISO format never re-parses a canonical output. -/
theorem fmt4_canon_none (t : Tm) : fmt4 (canonTs t).data = none := by
  cases h : fmt4 (canonTs t).data with
  | none => rfl
  | some t2 =>
      rcases canonTs_chars '-' (fmt4_dash h) with hd | hd
      · exact absurd hd (by decide)
      · exact absurd hd (by decide)

/-- Claim C5: the sequential format loop rewrites a string value to the
canonical compact timestamp of the first format that parses it (the rewritten
value is never re-parsed by a later format), leaves unparseable strings and
non-string values unchanged, and the spec's example timestamp normalizes to
the claimed canonical form. -/
theorem timestamp_first_format_wins :
    (∀ s : String, tryTimeFormats (.str s) =
        match firstTsParse s with
        | some t => .str (canonTs t)
        | none => .str s) ∧
    (∀ n : Int, tryTimeFormats (.int n) = .int n) ∧
    (∀ q : ℚ, tryTimeFormats (.float q) = .float q) ∧
    normalizeEntry "MPH_SENSING_START" "12-JAN-2003 10:11:12.123456" =
      .ok (.str "20030112T101112") := by
  refine ⟨?_, fun n => rfl, fun q => rfl, by decide⟩
  intro s
  unfold tryTimeFormats tsFormats firstTsParse
  simp only [List.foldl]
  cases h1 : fmt1 s.data with
  | some t1 => simp [h1, fmt2_canon_none, fmt3_canon_none, fmt4_canon_none, Option.orElse]
  | none =>
      cases h2 : fmt2 s.data with
      | some t2 => simp [h1, h2, fmt3_canon_none, fmt4_canon_none, Option.orElse]
      | none =>
          cases h3 : fmt3 s.data with
          | some t3 => simp [h1, h2, h3, fmt4_canon_none, Option.orElse]
          | none =>
              cases h4 : fmt4 s.data with
              | some t4 => simp [h1, h2, h3, h4, Option.orElse]
              | none => simp [h1, h2, h3, h4, Option.orElse]

/-! ## Claim C6: LAT/LONG micro-degree rescaling -/

/-- Claim C6: a metadata field whose name contains LAT or LONG has its
numeric value divided by one million (integers become floats), fields with
neither token are passed through unrescaled, and the spec's example raw
integer becomes the claimed decimal degree value. -/
theorem latlong_rescale :
    (∀ key raw n, latlongKey key = true →
        tryTimeFormats (parse_literal (pyStrip raw)) = .int n →
        normalizeEntry key raw = .ok (.float ((n : ℚ) / 1000000))) ∧
    (∀ key raw q, latlongKey key = true →
        tryTimeFormats (parse_literal (pyStrip raw)) = .float q →
        normalizeEntry key raw = .ok (.float (q / 1000000))) ∧
    (∀ key raw, latlongKey key = false →
        normalizeEntry key raw = .ok (tryTimeFormats (parse_literal (pyStrip raw)))) ∧
    normalizeEntry "GCP_LAT" "52123456" = .ok (.float 52.123456) := by
  refine ⟨?_, ?_, ?_, ?_⟩
  · intro key raw n hkey hval
    unfold normalizeEntry
    rw [hval, hkey]
    simp
  · intro key raw q hkey hval
    unfold normalizeEntry
    rw [hval, hkey]
    simp
  · intro key raw hkey
    unfold normalizeEntry
    rw [hkey]
    simp
  · unfold normalizeEntry
    rw [show tryTimeFormats (parse_literal (pyStrip "52123456")) =
      Value.int 52123456 from by decide]
    rw [show latlongKey "GCP_LAT" = true from by decide]
    simp only [if_true]
    have hval : ((52123456 : Int) : ℚ) / 1000000 = 52.123456 := by norm_num
    rw [hval]

/-- Witness for C6: the rescaling branch and the pass-through branch at
concrete fields. -/
theorem latlong_rescale_witness :
    normalizeEntry "GCP1_LAT" "7" = .ok (.float (((7 : Int) : ℚ) / 1000000)) ∧
    normalizeEntry "SPH_PASS" "7" = .ok (tryTimeFormats (parse_literal (pyStrip "7"))) :=
  ⟨latlong_rescale.1 "GCP1_LAT" "7" 7 (by decide) (by decide),
   latlong_rescale.2.2.1 "SPH_PASS" "7" (by decide)⟩

end PyroSAR
